import Mathlib

/-!
# Verification of the SGX DH secure-channel handshake specification

Shallow embedding of the local-attestation Diffie-Hellman handshake declared in
`sgx_dh.h` (the only protocol source file present): message structures, the
session state machine and the four handshake operations, together with a
byte-level model of the packed wire layout.

The header declares only the API surface; the engine behind it is modelled
from the specification (Primitive Provider and Identity Reporter are external
collaborators, so the engine is parametrised over them).
-/

namespace SgxDh

/-- Caller's role in DH session establishment, from `sgx_dh_session_role_t`:
`SGX_DH_SESSION_INITIATOR` / `SGX_DH_SESSION_RESPONDER`. -/
inductive Role where
  | Initiator
  | Responder
  deriving DecidableEq, Repr

/-- Modelled from the spec: the protocol stage marker of the session state
machine (`Initialized`, `AwaitingMsg2`, `AwaitingMsg3`, `Completed`,
`Aborted`); the concrete stage field lives inside the opaque 200-byte
`sgx_dh_session_t` buffer whose implementation is not in the sources. -/
inductive Stage where
  | Initialized
  | AwaitingMsg2
  | AwaitingMsg3
  | Completed
  | Aborted
  deriving DecidableEq, Repr

/-- The error kinds of the protocol, from the spec's error-handling design:
`OrderingViolation`, `CryptoFailure`, `AttestationFailure`,
`AuthenticationFailure`, `MalformedReport` (refinements of `sgx_status_t`). -/
inductive DhError where
  | OrderingViolation
  | CryptoFailure
  | AttestationFailure
  | AuthenticationFailure
  | MalformedReport
  deriving DecidableEq, Repr

/-- Peer identity record, from `sgx_dh_session_enclave_identity_t`:
cpu_svn, misc_select, attributes, mr_enclave, mr_signer, isv_prod_id,
isv_svn (the reserved padding fields carry no information). -/
structure EnclaveIdentity where
  cpu_svn : Nat
  misc_select : Nat
  attributes : Nat
  mr_enclave : Nat
  mr_signer : Nat
  isv_prod_id : Nat
  isv_svn : Nat
  deriving DecidableEq, Repr

/-- Modelled from the spec: an attestation report produced by the external
Identity Reporter (`sgx_report_t` is an opaque platform structure not present
in the sources). It binds the reporting enclave's identity to caller-supplied
data — here the pair (responder public key, initiator public key) — and
carries a validity flag standing for its hardware signature. -/
structure Report where
  identity : EnclaveIdentity
  boundData : Nat × Nat
  valid : Bool
  deriving DecidableEq, Repr

/-- Modelled from the spec: Identity Reporter collaborator —
`generate_report(target_locator, bound_data) -> report` binding the local
platform identity to the bound data. -/
def genReport (selfId : EnclaveIdentity) (bound : Nat × Nat) : Report :=
  { identity := selfId, boundData := bound, valid := true }

/-- Modelled from the spec: Identity Reporter collaborator —
`verify_report(report) -> bound_data | fails`. -/
def verifyReport (r : Report) : Option (Nat × Nat) :=
  if r.valid then some r.boundData else none

/-- Modelled from the spec: the Identity Extractor — parses a verified report
into the structured peer-identity record. -/
def extractIdentity (r : Report) : EnclaveIdentity :=
  r.identity

/-- The MAC transcript: the data over which a message's MAC is computed.
Per the spec invariant it includes both parties' ephemeral public keys and
the attestation report; for Message3 it additionally covers the
variable-length additional-property blob. -/
structure Transcript where
  g_a : Nat
  g_b : Nat
  report : Report
  additional_prop : List Nat
  deriving DecidableEq, Repr

/-- Modelled from the spec: the Primitive Provider external collaborator —
EC key-pair generation (deterministic in an entropy input), EC Diffie-Hellman
shared-secret computation, AES-CMAC over a transcript, and the key-derivation
function (separate labels for the MAC key `SMK` and the session key `AEK`).
`dh_agree` is the Diffie-Hellman agreement property of the primitives;
`mac_len` is the spec's `mac(key, data) -> 16 bytes`. -/
structure Primitives where
  genKeypair : Nat → Nat × Nat
  sharedSecret : Nat → Nat → Nat
  cmac : Nat → Transcript → List Nat
  kdfSMK : Nat → Nat
  kdfAEK : Nat → Nat
  dh_agree : ∀ e1 e2 : Nat,
    sharedSecret (genKeypair e1).2 (genKeypair e2).1 =
      sharedSecret (genKeypair e2).2 (genKeypair e1).1
  mac_len : ∀ (k : Nat) (t : Transcript), (cmac k t).length = 16

/-- Message1 from `sgx_dh_msg1_t`: the responder's ephemeral public key `g_a`
plus the responder's attestation target locator. -/
structure Msg1 where
  g_a : Nat
  target : Nat
  deriving DecidableEq, Repr

/-- Message2 from `sgx_dh_msg2_t`: the initiator's ephemeral public key `g_b`,
its attestation report, and the 16-byte MAC field `cmac`. -/
structure Msg2 where
  g_b : Nat
  report : Report
  cmac : List Nat
  deriving DecidableEq, Repr

/-- Message3 from `sgx_dh_msg3_t` / `sgx_dh_msg3_body_t`: the 16-byte MAC
field `cmac` over the body, the responder's report and the variable-length
additional-property blob. -/
structure Msg3 where
  cmac : List Nat
  report : Report
  additional_prop : List Nat
  deriving DecidableEq, Repr

/-- Modelled from the spec: the mutable session state behind the opaque
`sgx_dh_session_t` buffer — role, own ephemeral key pair, peer's ephemeral
public key once received, and the stage marker. -/
structure Session where
  role : Role
  stage : Stage
  pub : Nat
  priv : Nat
  peerPub : Nat
  deriving DecidableEq, Repr

/-- Modelled from the spec: the transition to the terminal `Aborted` stage
zeroes the session's key material so no partial key material survives. -/
def abortSession (s : Session) : Session :=
  { role := s.role, stage := .Aborted, pub := 0, priv := 0, peerPub := 0 }

/-- Modelled from the spec: `sgx_dh_init_session` — allocates a fresh session
bound to the role with a freshly generated ephemeral key pair; stage
`Initialized`. -/
def sgx_dh_init_session (P : Primitives) (role : Role) (entropy : Nat) : Session :=
  { role := role
    stage := .Initialized
    pub := (P.genKeypair entropy).1
    priv := (P.genKeypair entropy).2
    peerPub := 0 }

/-- Modelled from the spec: `sgx_dh_responder_gen_msg1` — requires role
`Responder` and stage `Initialized`; emits the responder's ephemeral public
key plus its enclave target locator and advances the stage to `AwaitingMsg2`.
Out-of-stage invocation fails with `OrderingViolation` without mutating the
session. -/
def sgx_dh_responder_gen_msg1 (s : Session) (target : Nat) :
    Except DhError Msg1 × Session :=
  if s.role = .Responder ∧ s.stage = .Initialized then
    (.ok { g_a := s.pub, target := target }, { s with stage := .AwaitingMsg2 })
  else
    (.error .OrderingViolation, s)

/-- Modelled from the spec: `sgx_dh_initiator_proc_msg1` — requires role
`Initiator` and stage `Initialized`; computes the EC shared secret from
`msg1.g_a` and the own private key, requests a report binding both public
keys, MACs the transcript under the derived `SMK`, emits Message2 and
advances to `AwaitingMsg3`. Out-of-stage invocation fails with
`OrderingViolation` without mutating the session. -/
def sgx_dh_initiator_proc_msg1 (P : Primitives) (selfId : EnclaveIdentity)
    (s : Session) (msg1 : Msg1) : Except DhError Msg2 × Session :=
  if s.role = .Initiator ∧ s.stage = .Initialized then
    (.ok { g_b := s.pub, report := genReport selfId (msg1.g_a, s.pub),
           cmac := P.cmac (P.kdfSMK (P.sharedSecret s.priv msg1.g_a))
             { g_a := msg1.g_a, g_b := s.pub,
               report := genReport selfId (msg1.g_a, s.pub),
               additional_prop := [] } },
     { s with stage := .AwaitingMsg3, peerPub := msg1.g_a })
  else
    (.error .OrderingViolation, s)

/-- Modelled from the spec: `sgx_dh_responder_proc_msg2` — requires role
`Responder` and stage `AwaitingMsg2`; recomputes the shared secret and the
expected MAC (mismatch: `AuthenticationFailure`, Aborted), verifies the
report and that its bound data matches the transcript's two public keys
(failure: `AttestationFailure`, Aborted), derives the AEK, extracts the
initiator identity, produces Message3 over the same transcript rule and
advances to `Completed`. Out-of-stage invocation fails with
`OrderingViolation` without mutating the session. -/
def sgx_dh_responder_proc_msg2 (P : Primitives) (selfId : EnclaveIdentity)
    (s : Session) (msg2 : Msg2) (addProp : List Nat) :
    Except DhError (Msg3 × Nat × EnclaveIdentity) × Session :=
  if s.role = .Responder ∧ s.stage = .AwaitingMsg2 then
    if P.cmac (P.kdfSMK (P.sharedSecret s.priv msg2.g_b))
         { g_a := s.pub, g_b := msg2.g_b, report := msg2.report,
           additional_prop := [] } = msg2.cmac then
      match verifyReport msg2.report with
      | none => (.error .AttestationFailure, abortSession s)
      | some bound =>
        if bound = (s.pub, msg2.g_b) then
          (.ok ({ cmac := P.cmac (P.kdfSMK (P.sharedSecret s.priv msg2.g_b))
                    { g_a := s.pub, g_b := msg2.g_b,
                      report := genReport selfId (s.pub, msg2.g_b),
                      additional_prop := addProp },
                  report := genReport selfId (s.pub, msg2.g_b),
                  additional_prop := addProp },
                P.kdfAEK (P.sharedSecret s.priv msg2.g_b),
                extractIdentity msg2.report),
           { s with stage := .Completed, peerPub := msg2.g_b })
        else
          (.error .AttestationFailure, abortSession s)
    else
      (.error .AuthenticationFailure, abortSession s)
  else
    (.error .OrderingViolation, s)

/-- Modelled from the spec: `sgx_dh_initiator_proc_msg3` — requires role
`Initiator` and stage `AwaitingMsg3`; verifies Message3's MAC and embedded
report exactly as `sgx_dh_responder_proc_msg2` does, derives the AEK and peer
identity and advances to `Completed`. Out-of-stage invocation fails with
`OrderingViolation` without mutating the session. -/
def sgx_dh_initiator_proc_msg3 (P : Primitives) (s : Session) (msg3 : Msg3) :
    Except DhError (Nat × EnclaveIdentity) × Session :=
  if s.role = .Initiator ∧ s.stage = .AwaitingMsg3 then
    if P.cmac (P.kdfSMK (P.sharedSecret s.priv s.peerPub))
         { g_a := s.peerPub, g_b := s.pub, report := msg3.report,
           additional_prop := msg3.additional_prop } = msg3.cmac then
      match verifyReport msg3.report with
      | none => (.error .AttestationFailure, abortSession s)
      | some bound =>
        if bound = (s.peerPub, s.pub) then
          (.ok (P.kdfAEK (P.sharedSecret s.priv s.peerPub),
                extractIdentity msg3.report),
           { s with stage := .Completed })
        else
          (.error .AttestationFailure, abortSession s)
    else
      (.error .AuthenticationFailure, abortSession s)
  else
    (.error .OrderingViolation, s)

/-- All artifacts of one full honest four-step exchange between one
Initiator and one Responder: the three messages, the sessions after each
step, and both parties' derived keys and extracted peer identities. -/
structure RunResult where
  msg1 : Msg1
  sR1 : Session
  msg2 : Msg2
  sI1 : Session
  msg3 : Msg3
  aekR : Nat
  identR : EnclaveIdentity
  sR2 : Session
  aekI : Nat
  identI : EnclaveIdentity
  sI2 : Session
  deriving DecidableEq, Repr

/-- Modelled from the spec: the full four-step exchange in order —
`sgx_dh_responder_gen_msg1`, `sgx_dh_initiator_proc_msg1`,
`sgx_dh_responder_proc_msg2`, `sgx_dh_initiator_proc_msg3` — with the
produced messages delivered unmodified; `none` if any step fails. -/
def honestRun (P : Primitives) (idI idR : EnclaveIdentity) (eI eR : Nat)
    (target : Nat) (addProp : List Nat) : Option RunResult :=
  let sR0 := sgx_dh_init_session P .Responder eR
  let sI0 := sgx_dh_init_session P .Initiator eI
  match sgx_dh_responder_gen_msg1 sR0 target with
  | (.error _, _) => none
  | (.ok m1, sR1) =>
    match sgx_dh_initiator_proc_msg1 P idI sI0 m1 with
    | (.error _, _) => none
    | (.ok m2, sI1) =>
      match sgx_dh_responder_proc_msg2 P idR sR1 m2 addProp with
      | (.error _, _) => none
      | (.ok (m3, aekR, identR), sR2) =>
        match sgx_dh_initiator_proc_msg3 P sI1 m3 with
        | (.error _, _) => none
        | (.ok (aekI, identI), sI2) =>
          some { msg1 := m1, sR1 := sR1, msg2 := m2, sI1 := sI1, msg3 := m3,
                 aekR := aekR, identR := identR, sR2 := sR2,
                 aekI := aekI, identI := identI, sI2 := sI2 }

/-! ## A concrete instance of the external collaborators

Used to evaluate the parametrised engine on concrete inputs. The key pair is
the entropy itself, the shared secret is the product (so Diffie-Hellman
agreement is commutativity of multiplication), and the MAC is an injective
pairing of key and transcript placed in the first of 16 tag cells. -/

/-- Injective encoding of a byte list into one natural number. -/
def encodeList : List Nat → Nat
  | [] => 0
  | a :: l => Nat.pair a (encodeList l) + 1

/-- Injective encoding of an identity record into one natural number. -/
def encodeIdentity (i : EnclaveIdentity) : Nat :=
  Nat.pair i.cpu_svn (Nat.pair i.misc_select (Nat.pair i.attributes
    (Nat.pair i.mr_enclave (Nat.pair i.mr_signer
      (Nat.pair i.isv_prod_id i.isv_svn)))))

/-- Injective encoding of a report into one natural number. -/
def encodeReport (r : Report) : Nat :=
  Nat.pair (encodeIdentity r.identity)
    (Nat.pair (Nat.pair r.boundData.1 r.boundData.2) (cond r.valid 1 0))

/-- Injective encoding of a MAC transcript into one natural number. -/
def encodeTranscript (t : Transcript) : Nat :=
  Nat.pair t.g_a (Nat.pair t.g_b
    (Nat.pair (encodeReport t.report) (encodeList t.additional_prop)))

/-- The concrete instance of the Primitive Provider. -/
def toyPrims : Primitives where
  genKeypair e := (e, e)
  sharedSecret p q := p * q
  cmac k t := Nat.pair k (encodeTranscript t) :: List.replicate 15 0
  kdfSMK n := Nat.pair 0 n
  kdfAEK n := Nat.pair 1 n
  dh_agree := by intro e1 e2; exact Nat.mul_comm e1 e2
  mac_len := by intro k t; simp

/-! ## The concrete artifacts of the honest run

The values each step of the honest four-step exchange produces, written out
so that the run can be evaluated one step at a time. -/

/-- Message1 of the honest run. -/
def runMsg1 (P : Primitives) (eR target : Nat) : Msg1 :=
  { g_a := (P.genKeypair eR).1, target := target }

/-- Responder session after `sgx_dh_responder_gen_msg1`. -/
def runSR1 (P : Primitives) (eR : Nat) : Session :=
  { role := .Responder, stage := .AwaitingMsg2,
    pub := (P.genKeypair eR).1, priv := (P.genKeypair eR).2, peerPub := 0 }

/-- The MAC key both parties derive from the shared secret. -/
def runSmk (P : Primitives) (eI eR : Nat) : Nat :=
  P.kdfSMK (P.sharedSecret (P.genKeypair eI).2 (P.genKeypair eR).1)

/-- The initiator's attestation report, binding both public keys. -/
def runReportI (P : Primitives) (idI : EnclaveIdentity) (eI eR : Nat) : Report :=
  genReport idI ((P.genKeypair eR).1, (P.genKeypair eI).1)

/-- The MAC transcript of Message2. -/
def runT2 (P : Primitives) (idI : EnclaveIdentity) (eI eR : Nat) : Transcript :=
  { g_a := (P.genKeypair eR).1, g_b := (P.genKeypair eI).1,
    report := runReportI P idI eI eR, additional_prop := [] }

/-- Message2 of the honest run. -/
def runMsg2 (P : Primitives) (idI : EnclaveIdentity) (eI eR : Nat) : Msg2 :=
  { g_b := (P.genKeypair eI).1, report := runReportI P idI eI eR,
    cmac := P.cmac (runSmk P eI eR) (runT2 P idI eI eR) }

/-- Initiator session after `sgx_dh_initiator_proc_msg1`. -/
def runSI1 (P : Primitives) (eI eR : Nat) : Session :=
  { role := .Initiator, stage := .AwaitingMsg3,
    pub := (P.genKeypair eI).1, priv := (P.genKeypair eI).2,
    peerPub := (P.genKeypair eR).1 }

/-- The responder's attestation report, binding both public keys. -/
def runReportR (P : Primitives) (idR : EnclaveIdentity) (eI eR : Nat) : Report :=
  genReport idR ((P.genKeypair eR).1, (P.genKeypair eI).1)

/-- The MAC transcript of Message3. -/
def runT3 (P : Primitives) (idR : EnclaveIdentity) (eI eR : Nat)
    (addProp : List Nat) : Transcript :=
  { g_a := (P.genKeypair eR).1, g_b := (P.genKeypair eI).1,
    report := runReportR P idR eI eR, additional_prop := addProp }

/-- Message3 of the honest run. -/
def runMsg3 (P : Primitives) (idR : EnclaveIdentity) (eI eR : Nat)
    (addProp : List Nat) : Msg3 :=
  { cmac := P.cmac (runSmk P eI eR) (runT3 P idR eI eR addProp),
    report := runReportR P idR eI eR, additional_prop := addProp }

/-- The AEK both parties derive. -/
def runAek (P : Primitives) (eI eR : Nat) : Nat :=
  P.kdfAEK (P.sharedSecret (P.genKeypair eI).2 (P.genKeypair eR).1)

/-- Responder session after `sgx_dh_responder_proc_msg2`. -/
def runSR2 (P : Primitives) (eI eR : Nat) : Session :=
  { role := .Responder, stage := .Completed,
    pub := (P.genKeypair eR).1, priv := (P.genKeypair eR).2,
    peerPub := (P.genKeypair eI).1 }

/-- Initiator session after `sgx_dh_initiator_proc_msg3`. -/
def runSI2 (P : Primitives) (eI eR : Nat) : Session :=
  { role := .Initiator, stage := .Completed,
    pub := (P.genKeypair eI).1, priv := (P.genKeypair eI).2,
    peerPub := (P.genKeypair eR).1 }

/-! ## Concrete inputs for witnesses -/

/-- A concrete initiator identity. -/
def wIdI : EnclaveIdentity := ⟨0, 0, 0, 0, 0, 0, 0⟩

/-- A concrete responder identity. -/
def wIdR : EnclaveIdentity := ⟨1, 0, 0, 0, 0, 0, 0⟩

/-- A concrete responder session still in `Initialized` stage. -/
def wSession : Session :=
  { role := .Responder, stage := .Initialized, pub := 2, priv := 2, peerPub := 0 }

/-- A concrete Message1. -/
def wMsg1 : Msg1 := { g_a := 2, target := 9 }

/-- A concrete Message2 with an unauthentic MAC. -/
def wMsg2 : Msg2 := { g_b := 1, report := genReport wIdI (2, 1), cmac := [0] }

/-- A concrete Message3 with an unauthentic MAC. -/
def wMsg3 : Msg3 := { cmac := [0], report := genReport wIdR (2, 1), additional_prop := [] }

/-- A concrete responder session in `AwaitingMsg2` stage. -/
def wSessionR2 : Session :=
  { role := .Responder, stage := .AwaitingMsg2, pub := 2, priv := 2, peerPub := 0 }

/-! ## Call frames: the input message buffer next to the session

Modelled from the spec: the C API passes each consumed message through a
`const` pointer and the spec states the four operations are pure with
respect to everything but the single owning session. A call frame carries
the input message buffer alongside the session so that the frame condition
on the buffer is a statable property of the operation. -/

/-- Call frame of `sgx_dh_initiator_proc_msg1`. -/
structure Msg1Frame where
  session : Session
  buf : Msg1
  deriving DecidableEq, Repr

/-- Call frame of `sgx_dh_responder_proc_msg2`. -/
structure Msg2Frame where
  session : Session
  buf : Msg2
  deriving DecidableEq, Repr

/-- Call frame of `sgx_dh_initiator_proc_msg3`. -/
structure Msg3Frame where
  session : Session
  buf : Msg3
  deriving DecidableEq, Repr

/-- Operation `sgx_dh_initiator_proc_msg1` acting on its call frame: the session is
replaced by the operation's output session, the input buffer stays. -/
def initiator_proc_msg1_frame (P : Primitives) (selfId : EnclaveIdentity)
    (f : Msg1Frame) : Except DhError Msg2 × Msg1Frame :=
  ((sgx_dh_initiator_proc_msg1 P selfId f.session f.buf).1,
   { session := (sgx_dh_initiator_proc_msg1 P selfId f.session f.buf).2,
     buf := f.buf })

/-- Operation `sgx_dh_responder_proc_msg2` acting on its call frame. -/
def responder_proc_msg2_frame (P : Primitives) (selfId : EnclaveIdentity)
    (f : Msg2Frame) (addProp : List Nat) :
    Except DhError (Msg3 × Nat × EnclaveIdentity) × Msg2Frame :=
  ((sgx_dh_responder_proc_msg2 P selfId f.session f.buf addProp).1,
   { session := (sgx_dh_responder_proc_msg2 P selfId f.session f.buf addProp).2,
     buf := f.buf })

/-- Operation `sgx_dh_initiator_proc_msg3` acting on its call frame. -/
def initiator_proc_msg3_frame (P : Primitives) (f : Msg3Frame) :
    Except DhError (Nat × EnclaveIdentity) × Msg3Frame :=
  ((sgx_dh_initiator_proc_msg3 P f.session f.buf).1,
   { session := (sgx_dh_initiator_proc_msg3 P f.session f.buf).2,
     buf := f.buf })

/-! ## Byte-level wire layout

`#pragma pack(push, 1)` in `sgx_dh.h` makes every protocol structure
byte-packed with no padding between fields; multi-byte integers are
little-endian, matching the EC public-key encoding convention. -/

/-- Constant `SGX_DH_MAC_SIZE` from `sgx_dh.h`. -/
def SGX_DH_MAC_SIZE : Nat := 16

/-- Constant `SGX_DH_SESSION_DATA_SIZE` from `sgx_dh.h`. -/
def SGX_DH_SESSION_DATA_SIZE : Nat := 200

/-- Modelled from the spec: the 64-byte little-endian EC public-key encoding
(`sgx_ec256_public_t` is declared in a platform header not in the sources). -/
def SGX_EC256_PUB_SIZE : Nat := 64

/-- Modelled from the spec: `sgx_report_t` is a fixed-size opaque blob; its
platform header is not in the sources, so its concrete byte count is fixed
here once for the whole development. -/
def SGX_REPORT_SIZE : Nat := 432

/-- Modelled from the spec: `sgx_target_info_t` is a fixed-size opaque blob;
its platform header is not in the sources, so its concrete byte count is
fixed here once for the whole development. -/
def SGX_TARGET_INFO_SIZE : Nat := 512

/-- Little-endian encoding of a natural number into `w` bytes. -/
def natToLE : Nat → Nat → List Nat
  | 0, _ => []
  | w + 1, n => n % 256 :: natToLE w (n / 256)

/-- Value of a little-endian byte list. -/
def leVal : List Nat → Nat
  | [] => 0
  | b :: l => b + 256 * leVal l

/-- Wire form of `sgx_dh_msg1_t`: public key `g_a`, then the target locator,
each a byte list. -/
structure WireMsg1 where
  g_a : List Nat
  target : List Nat
  deriving DecidableEq, Repr

/-- Field sizes of `sgx_dh_msg1_t`. -/
def WireMsg1.wf (m : WireMsg1) : Prop :=
  m.g_a.length = SGX_EC256_PUB_SIZE ∧ m.target.length = SGX_TARGET_INFO_SIZE

/-- Serialization of `sgx_dh_msg1_t` under `#pragma pack(1)`: the fields in
declaration order with no padding. -/
def wireMsg1Bytes (m : WireMsg1) : List Nat :=
  m.g_a ++ m.target

/-- Wire form of `sgx_dh_msg2_t`: public key `g_b`, then the report, then
the 16-byte MAC. -/
structure WireMsg2 where
  g_b : List Nat
  report : List Nat
  cmac : List Nat
  deriving DecidableEq, Repr

/-- Field sizes of `sgx_dh_msg2_t`. -/
def WireMsg2.wf (m : WireMsg2) : Prop :=
  m.g_b.length = SGX_EC256_PUB_SIZE ∧ m.report.length = SGX_REPORT_SIZE ∧
    m.cmac.length = SGX_DH_MAC_SIZE

/-- Serialization of `sgx_dh_msg2_t` under `#pragma pack(1)`. -/
def wireMsg2Bytes (m : WireMsg2) : List Nat :=
  m.g_b ++ m.report ++ m.cmac

/-- Wire form of `sgx_dh_msg3_t`: the 16-byte MAC, then the body
(`sgx_dh_msg3_body_t`: report, `uint32` additional-property length, and the
flexible additional-property array). -/
structure WireMsg3 where
  cmac : List Nat
  report : List Nat
  additional_prop : List Nat
  deriving DecidableEq, Repr

/-- Field sizes of `sgx_dh_msg3_t`; the `uint32` length field bounds the
additional-property blob. -/
def WireMsg3.wf (m : WireMsg3) : Prop :=
  m.cmac.length = SGX_DH_MAC_SIZE ∧ m.report.length = SGX_REPORT_SIZE ∧
    m.additional_prop.length < 2 ^ 32

/-- Serialization of `sgx_dh_msg3_body_t` under `#pragma pack(1)`: report,
4-byte little-endian `additional_prop_length`, then the blob itself. -/
def wireMsg3BodyBytes (m : WireMsg3) : List Nat :=
  m.report ++ natToLE 4 m.additional_prop.length ++ m.additional_prop

/-- Serialization of `sgx_dh_msg3_t` under `#pragma pack(1)`: the MAC
followed immediately by the body. -/
def wireMsg3Bytes (m : WireMsg3) : List Nat :=
  m.cmac ++ wireMsg3BodyBytes m

/-- Role tag byte inside the packed session buffer. -/
def roleByte : Role → Nat
  | .Initiator => 0
  | .Responder => 1

/-- Stage tag byte inside the packed session buffer. -/
def stageByte : Stage → Nat
  | .Initialized => 0
  | .AwaitingMsg2 => 1
  | .AwaitingMsg3 => 2
  | .Completed => 3
  | .Aborted => 4

/-- Modelled from the spec: the session state packed into the opaque
`uint8_t sgx_dh_session[SGX_DH_SESSION_DATA_SIZE]` buffer of
`sgx_dh_session_t` — one role byte, one stage byte, the 64-byte public key,
the 32-byte private key, the 64-byte peer public key, and reserved
padding. -/
def sessionBytes (s : Session) : List Nat :=
  roleByte s.role :: stageByte s.stage ::
    (natToLE 64 s.pub ++ natToLE 32 s.priv ++ natToLE 64 s.peerPub ++
      List.replicate 38 0)

/-- A concrete well-formed wire Message1. -/
def wWireMsg1 : WireMsg1 :=
  { g_a := List.replicate 64 1, target := List.replicate 512 2 }

/-- A concrete well-formed wire Message2. -/
def wWireMsg2 : WireMsg2 :=
  { g_b := List.replicate 64 1, report := List.replicate 432 3,
    cmac := List.replicate 16 4 }

/-- A concrete well-formed wire Message3. -/
def wWireMsg3 : WireMsg3 :=
  { cmac := List.replicate 16 5, report := List.replicate 432 6,
    additional_prop := [7, 8] }

/-! ## Lemmas -/

theorem natToLE_length (w n : Nat) : (natToLE w n).length = w := by
  induction w generalizing n with
  | zero => rfl
  | succ w ih => simp [natToLE, ih]

theorem leVal_natToLE (w n : Nat) (h : n < 256 ^ w) :
    leVal (natToLE w n) = n := by
  induction w generalizing n with
  | zero =>
    simp only [natToLE, leVal]
    omega
  | succ w ih =>
    simp only [natToLE, leVal]
    rw [ih (n / 256) (by rw [pow_succ] at h; omega)]
    omega

theorem session_bytes_length (s : Session) :
    (sessionBytes s).length = SGX_DH_SESSION_DATA_SIZE := by
  simp [sessionBytes, natToLE_length, SGX_DH_SESSION_DATA_SIZE]

theorem drop_len_append (n : Nat) (l1 l2 : List Nat) (h : l1.length = n) :
    (l1 ++ l2).drop n = l2 := by
  rw [← h]
  exact List.drop_left _ _

theorem wWireMsg1_wf : wWireMsg1.wf := by
  refine ⟨?_, ?_⟩ <;>
    simp only [wWireMsg1, List.length_replicate, SGX_EC256_PUB_SIZE,
      SGX_TARGET_INFO_SIZE]

theorem wWireMsg2_wf : wWireMsg2.wf := by
  refine ⟨?_, ?_, ?_⟩ <;>
    simp only [wWireMsg2, List.length_replicate, SGX_EC256_PUB_SIZE,
      SGX_REPORT_SIZE, SGX_DH_MAC_SIZE]

theorem wWireMsg3_wf : wWireMsg3.wf := by
  refine ⟨?_, ?_, ?_⟩
  · simp only [wWireMsg3, List.length_replicate, SGX_DH_MAC_SIZE]
  · simp only [wWireMsg3, List.length_replicate, SGX_REPORT_SIZE]
  · simp only [wWireMsg3, List.length_cons, List.length_nil]
    decide

theorem encodeList_injective : Function.Injective encodeList := by
  intro l1 l2 h
  induction l1 generalizing l2 with
  | nil => cases l2 with
    | nil => rfl
    | cons b l => simp [encodeList] at h
  | cons a l ih => cases l2 with
    | nil => simp [encodeList] at h
    | cons b m =>
      simp only [encodeList, Nat.add_right_cancel_iff, Nat.pair_eq_pair] at h
      rw [h.1, ih h.2]

theorem encodeIdentity_injective : Function.Injective encodeIdentity := by
  intro i1 i2 h
  simp only [encodeIdentity, Nat.pair_eq_pair] at h
  obtain ⟨h1, h2, h3, h4, h5, h6, h7⟩ := h
  cases i1; cases i2; simp_all

theorem encodeReport_injective : Function.Injective encodeReport := by
  intro r1 r2 h
  simp only [encodeReport, Nat.pair_eq_pair] at h
  obtain ⟨h1, ⟨h2, h3⟩, h4⟩ := h
  cases r1 with
  | mk i1 b1 v1 =>
    cases r2 with
    | mk i2 b2 v2 =>
      simp only at h1 h2 h3 h4
      have hi := encodeIdentity_injective h1
      have hv : v1 = v2 := by cases v1 <;> cases v2 <;> simp_all
      simp_all [Prod.ext_iff]

theorem encodeTranscript_injective : Function.Injective encodeTranscript := by
  intro t1 t2 h
  simp only [encodeTranscript, Nat.pair_eq_pair] at h
  obtain ⟨h1, h2, h3, h4⟩ := h
  cases t1; cases t2
  simp only [Transcript.mk.injEq]
  simp only at h1 h2 h3 h4
  exact ⟨h1, h2, encodeReport_injective h3, encodeList_injective h4⟩

/-- The concrete MAC is transcript-binding: equal tags force equal
transcripts (and equal keys). -/
theorem toyPrims_cmac_binding (k k' : Nat) (t t' : Transcript)
    (h : toyPrims.cmac k t = toyPrims.cmac k' t') : t = t' := by
  simp only [toyPrims, List.cons.injEq, Nat.pair_eq_pair] at h
  exact encodeTranscript_injective h.1.2

/-! ## Helper lemmas -/

/-- Modifying a byte of a list at an in-range position to a different value
changes the list. -/
theorem set_byte_ne (l : List Nat) (i b : Nat) (hi : i < l.length)
    (hb : b ≠ l[i]) : l.set i b ≠ l := by
  intro h
  apply hb
  have hi' : i < (l.set i b).length := by rw [List.length_set]; exact hi
  calc b = (l.set i b)[i] := (List.getElem_set_self hi').symm
    _ = l[i] := by simp only [h]

/-- Lemma: `sgx_dh_responder_proc_msg2` on an in-stage session whose recomputed
expected MAC differs from `msg2.cmac` fails with `AuthenticationFailure` and
aborts the session. -/
theorem proc_msg2_mac_mismatch (P : Primitives) (selfId : EnclaveIdentity)
    (s : Session) (m2 : Msg2) (ap : List Nat)
    (hrole : s.role = .Responder) (hstage : s.stage = .AwaitingMsg2)
    (hmac : P.cmac (P.kdfSMK (P.sharedSecret s.priv m2.g_b))
        { g_a := s.pub, g_b := m2.g_b, report := m2.report,
          additional_prop := [] } ≠ m2.cmac) :
    sgx_dh_responder_proc_msg2 P selfId s m2 ap =
      (.error .AuthenticationFailure, abortSession s) := by
  unfold sgx_dh_responder_proc_msg2
  rw [if_pos ⟨hrole, hstage⟩]
  rw [if_neg hmac]

/-- Lemma: `sgx_dh_initiator_proc_msg3` on an in-stage session whose recomputed
expected MAC differs from `msg3.cmac` fails with `AuthenticationFailure` and
aborts the session. -/
theorem proc_msg3_mac_mismatch (P : Primitives) (s : Session) (m3 : Msg3)
    (hrole : s.role = .Initiator) (hstage : s.stage = .AwaitingMsg3)
    (hmac : P.cmac (P.kdfSMK (P.sharedSecret s.priv s.peerPub))
        { g_a := s.peerPub, g_b := s.pub, report := m3.report,
          additional_prop := m3.additional_prop } ≠ m3.cmac) :
    sgx_dh_initiator_proc_msg3 P s m3 =
      (.error .AuthenticationFailure, abortSession s) := by
  unfold sgx_dh_initiator_proc_msg3
  rw [if_pos ⟨hrole, hstage⟩]
  rw [if_neg hmac]

/-! ## Step lemmas for the honest run -/

theorem gen_msg1_run (P : Primitives) (eR target : Nat) :
    sgx_dh_responder_gen_msg1 (sgx_dh_init_session P .Responder eR) target =
      (.ok (runMsg1 P eR target), runSR1 P eR) := rfl

theorem proc_msg1_run (P : Primitives) (idI : EnclaveIdentity)
    (eI eR target : Nat) :
    sgx_dh_initiator_proc_msg1 P idI (sgx_dh_init_session P .Initiator eI)
        (runMsg1 P eR target) =
      (.ok (runMsg2 P idI eI eR), runSI1 P eI eR) := rfl

theorem proc_msg2_run (P : Primitives) (idI idR : EnclaveIdentity)
    (eI eR : Nat) (addProp : List Nat) :
    sgx_dh_responder_proc_msg2 P idR (runSR1 P eR) (runMsg2 P idI eI eR)
        addProp =
      (.ok (runMsg3 P idR eI eR addProp, runAek P eI eR, idI),
       runSR2 P eI eR) := by
  have hkey := P.dh_agree eR eI
  simp only [sgx_dh_responder_proc_msg2, runSR1, runMsg2, runSmk, runT2,
    runReportI, runMsg3, runT3, runReportR, runAek, runSR2, genReport,
    verifyReport, extractIdentity, hkey]
  simp

theorem proc_msg3_run (P : Primitives) (idR : EnclaveIdentity)
    (eI eR : Nat) (addProp : List Nat) :
    sgx_dh_initiator_proc_msg3 P (runSI1 P eI eR)
        (runMsg3 P idR eI eR addProp) =
      (.ok (runAek P eI eR, idR), runSI2 P eI eR) := by
  simp only [sgx_dh_initiator_proc_msg3, runSI1, runMsg3, runSmk, runT3,
    runReportR, runAek, runSI2, genReport, verifyReport, extractIdentity]
  simp

/-! ## Theorems for the claims -/

/-- Claim C1: for every pairing of one Initiator and one Responder session, the
full four-step exchange (responder generate_msg1, initiator process_msg1,
responder process_msg2, initiator process_msg3) with the produced messages
delivered unmodified succeeds and yields the same derived key (AEK) on both
sides, and each side's extracted PeerIdentity equals the other party's real
identity. -/
theorem full_exchange_agreement (P : Primitives) (idI idR : EnclaveIdentity)
    (eI eR target : Nat) (addProp : List Nat) :
    ∃ r : RunResult,
      honestRun P idI idR eI eR target addProp = some r ∧
      r.aekI = r.aekR ∧ r.identI = idR ∧ r.identR = idI := by
  refine ⟨{ msg1 := runMsg1 P eR target, sR1 := runSR1 P eR,
            msg2 := runMsg2 P idI eI eR, sI1 := runSI1 P eI eR,
            msg3 := runMsg3 P idR eI eR addProp,
            aekR := runAek P eI eR, identR := idI, sR2 := runSR2 P eI eR,
            aekI := runAek P eI eR, identI := idR, sI2 := runSI2 P eI eR },
          ?_, rfl, rfl, rfl⟩
  simp only [honestRun, gen_msg1_run, proc_msg1_run, proc_msg2_run,
    proc_msg3_run]

/-- Claim C2: every handshake operation invoked while the session is not in that
operation's required role/stage fails with `OrderingViolation` and leaves the
session state unchanged; in particular, `sgx_dh_responder_proc_msg2` on a
responder session still in `Initialized` fails that way and a subsequent
correct-order `sgx_dh_responder_gen_msg1` still succeeds from the original
stage. -/
theorem out_of_stage_no_mutation (P : Primitives) (selfId : EnclaveIdentity)
    (s : Session) (target : Nat) (m1 : Msg1) (m2 : Msg2) (m3 : Msg3)
    (addProp : List Nat) :
    (¬(s.role = .Responder ∧ s.stage = .Initialized) →
      sgx_dh_responder_gen_msg1 s target = (.error .OrderingViolation, s)) ∧
    (¬(s.role = .Initiator ∧ s.stage = .Initialized) →
      sgx_dh_initiator_proc_msg1 P selfId s m1 =
        (.error .OrderingViolation, s)) ∧
    (¬(s.role = .Responder ∧ s.stage = .AwaitingMsg2) →
      sgx_dh_responder_proc_msg2 P selfId s m2 addProp =
        (.error .OrderingViolation, s)) ∧
    (¬(s.role = .Initiator ∧ s.stage = .AwaitingMsg3) →
      sgx_dh_initiator_proc_msg3 P s m3 = (.error .OrderingViolation, s)) ∧
    (s.role = .Responder → s.stage = .Initialized →
      sgx_dh_responder_proc_msg2 P selfId s m2 addProp =
        (.error .OrderingViolation, s) ∧
      sgx_dh_responder_gen_msg1 s target =
        (.ok { g_a := s.pub, target := target },
         { s with stage := .AwaitingMsg2 })) := by
  refine ⟨fun h => ?_, fun h => ?_, fun h => ?_, fun h => ?_,
          fun hrole hstage => ⟨?_, ?_⟩⟩
  · unfold sgx_dh_responder_gen_msg1; rw [if_neg h]
  · unfold sgx_dh_initiator_proc_msg1; rw [if_neg h]
  · unfold sgx_dh_responder_proc_msg2; rw [if_neg h]
  · unfold sgx_dh_initiator_proc_msg3; rw [if_neg h]
  · unfold sgx_dh_responder_proc_msg2
    rw [if_neg]
    rintro ⟨-, hstage'⟩
    rw [hstage] at hstage'
    exact Stage.noConfusion hstage'
  · unfold sgx_dh_responder_gen_msg1; rw [if_pos ⟨hrole, hstage⟩]

/-- Witness for C2: the rejected out-of-order call on a concrete responder
session still in `Initialized` has no side effect, and the correct-order call
still succeeds afterwards. -/
theorem out_of_stage_no_mutation_witness :
    sgx_dh_responder_proc_msg2 toyPrims wIdR wSession wMsg2 [] =
      (.error .OrderingViolation, wSession) ∧
    sgx_dh_responder_gen_msg1 wSession 9 =
      (.ok { g_a := wSession.pub, target := 9 },
       { wSession with stage := .AwaitingMsg2 }) :=
  (out_of_stage_no_mutation toyPrims wIdR wSession 9 wMsg1 wMsg2 wMsg3
    []).2.2.2.2 rfl rfl

/-- Counterexample to C3 as stated: on a concrete responder session still in
`Initialized`, `sgx_dh_responder_proc_msg2` returns the failure
`OrderingViolation`, yet the session does not transition to `Aborted` — its
stage is still `Initialized`. -/
theorem failure_aborts_counterexample :
    (sgx_dh_responder_proc_msg2 toyPrims wIdR wSession wMsg2 []).1 =
      .error .OrderingViolation ∧
    (sgx_dh_responder_proc_msg2 toyPrims wIdR wSession wMsg2 []).2.stage =
      .Initialized ∧
    (sgx_dh_responder_proc_msg2 toyPrims wIdR wSession wMsg2 []).2.stage ≠
      .Aborted := by
  refine ⟨rfl, rfl, ?_⟩
  intro h
  exact Stage.noConfusion h

/-- Claim C3 as amended: every failure other than `OrderingViolation` transitions
the session to the terminal `Aborted` stage with its key material zeroed,
while `OrderingViolation` leaves the session unchanged; in either case the
operation returns an error carrying no key material, message or identity
output. -/
theorem failure_aborts_amended (P : Primitives) (selfId : EnclaveIdentity)
    (s : Session) (target : Nat) (m1 : Msg1) (m2 : Msg2) (m3 : Msg3)
    (addProp : List Nat) :
    (∀ e s', sgx_dh_responder_gen_msg1 s target = (.error e, s') →
      e = .OrderingViolation ∧ s' = s) ∧
    (∀ e s', sgx_dh_initiator_proc_msg1 P selfId s m1 = (.error e, s') →
      e = .OrderingViolation ∧ s' = s) ∧
    (∀ e s', sgx_dh_responder_proc_msg2 P selfId s m2 addProp =
        (.error e, s') →
      (e = .OrderingViolation ∧ s' = s) ∨
      (s'.stage = .Aborted ∧ s'.pub = 0 ∧ s'.priv = 0 ∧ s'.peerPub = 0)) ∧
    (∀ e s', sgx_dh_initiator_proc_msg3 P s m3 = (.error e, s') →
      (e = .OrderingViolation ∧ s' = s) ∨
      (s'.stage = .Aborted ∧ s'.pub = 0 ∧ s'.priv = 0 ∧ s'.peerPub = 0)) := by
  refine ⟨fun e s' h => ?_, fun e s' h => ?_, fun e s' h => ?_,
          fun e s' h => ?_⟩
  · unfold sgx_dh_responder_gen_msg1 at h
    split at h
    all_goals
      injection h with h1 h2
    all_goals
      first
        | exact Except.noConfusion h1
        | (injection h1 with h1; subst h1; subst h2; exact ⟨rfl, rfl⟩)
  · unfold sgx_dh_initiator_proc_msg1 at h
    split at h
    all_goals
      injection h with h1 h2
    all_goals
      first
        | exact Except.noConfusion h1
        | (injection h1 with h1; subst h1; subst h2; exact ⟨rfl, rfl⟩)
  · unfold sgx_dh_responder_proc_msg2 at h
    repeat' split at h
    all_goals
      injection h with h1 h2
    all_goals
      first
        | exact Except.noConfusion h1
        | (injection h1 with h1; subst h1; subst h2;
           first
             | exact Or.inl ⟨rfl, rfl⟩
             | exact Or.inr ⟨rfl, rfl, rfl, rfl⟩)
  · unfold sgx_dh_initiator_proc_msg3 at h
    repeat' split at h
    all_goals
      injection h with h1 h2
    all_goals
      first
        | exact Except.noConfusion h1
        | (injection h1 with h1; subst h1; subst h2;
           first
             | exact Or.inl ⟨rfl, rfl⟩
             | exact Or.inr ⟨rfl, rfl, rfl, rfl⟩)

/-- Witness for the amended C3: a concrete `AuthenticationFailure` on an
in-stage responder session leaves the session in `Aborted` with zeroed key
material. -/
theorem failure_aborts_amended_witness :
    ((DhError.AuthenticationFailure = DhError.OrderingViolation ∧
        abortSession wSessionR2 = wSessionR2) ∨
      ((abortSession wSessionR2).stage = .Aborted ∧
        (abortSession wSessionR2).pub = 0 ∧
        (abortSession wSessionR2).priv = 0 ∧
        (abortSession wSessionR2).peerPub = 0)) :=
  (failure_aborts_amended toyPrims wIdR wSessionR2 9 wMsg1 wMsg2 wMsg3
    []).2.2.1 .AuthenticationFailure (abortSession wSessionR2) rfl


/-- Lemma: `sgx_dh_responder_proc_msg2` on the honest responder session rejects any
Message2 whose MAC field is not the authentic one, with
`AuthenticationFailure` and an aborted session. -/
theorem proc_msg2_wrong_mac (P : Primitives) (idI idR : EnclaveIdentity)
    (eI eR : Nat) (ap : List Nat) (mac' : List Nat)
    (hne : mac' ≠ (runMsg2 P idI eI eR).cmac) :
    sgx_dh_responder_proc_msg2 P idR (runSR1 P eR)
        { runMsg2 P idI eI eR with cmac := mac' } ap =
      (.error .AuthenticationFailure, abortSession (runSR1 P eR)) := by
  have hkey := P.dh_agree eR eI
  unfold sgx_dh_responder_proc_msg2
  split
  · split
    · rename_i hcond
      exfalso
      apply hne
      simp only [runMsg2, runSR1, runSmk, runT2, runReportI, genReport,
        hkey] at hcond ⊢
      exact hcond.symm
    · rfl
  · rename_i hcond
    exact absurd ⟨rfl, rfl⟩ hcond

/-- Lemma: `sgx_dh_initiator_proc_msg3` on the honest initiator session rejects any
Message3 whose MAC field is not the authentic one, with
`AuthenticationFailure` and an aborted session. -/
theorem proc_msg3_wrong_mac (P : Primitives) (idR : EnclaveIdentity)
    (eI eR : Nat) (ap : List Nat) (mac' : List Nat)
    (hne : mac' ≠ (runMsg3 P idR eI eR ap).cmac) :
    sgx_dh_initiator_proc_msg3 P (runSI1 P eI eR)
        { runMsg3 P idR eI eR ap with cmac := mac' } =
      (.error .AuthenticationFailure, abortSession (runSI1 P eI eR)) := by
  unfold sgx_dh_initiator_proc_msg3
  split
  · split
    · rename_i hcond
      exfalso
      apply hne
      simp only [runMsg3, runSI1, runSmk, runT3, runReportR,
        genReport] at hcond ⊢
      exact hcond.symm
    · rfl
  · rename_i hcond
    exact absurd ⟨rfl, rfl⟩ hcond

/-- Claim C4: modifying any single byte of `msg2.cmac` (resp. `msg3.cmac`) of a
correctly produced Message2 (resp. Message3) makes the consuming operation
on an in-stage session fail with `AuthenticationFailure`; it never completes
and never outputs a derived key. -/
theorem mac_tamper_fails (P : Primitives) (idI idR : EnclaveIdentity)
    (eI eR : Nat) (ap : List Nat) (i b j c : Nat)
    (hi : i < (runMsg2 P idI eI eR).cmac.length)
    (hb : b ≠ (runMsg2 P idI eI eR).cmac[i])
    (hj : j < (runMsg3 P idR eI eR ap).cmac.length)
    (hc : c ≠ (runMsg3 P idR eI eR ap).cmac[j]) :
    sgx_dh_responder_proc_msg2 P idR (runSR1 P eR)
        { runMsg2 P idI eI eR with
          cmac := (runMsg2 P idI eI eR).cmac.set i b } ap =
      (.error .AuthenticationFailure, abortSession (runSR1 P eR)) ∧
    sgx_dh_initiator_proc_msg3 P (runSI1 P eI eR)
        { runMsg3 P idR eI eR ap with
          cmac := (runMsg3 P idR eI eR ap).cmac.set j c } =
      (.error .AuthenticationFailure, abortSession (runSI1 P eI eR)) :=
  ⟨proc_msg2_wrong_mac P idI idR eI eR ap _ (set_byte_ne _ i b hi hb),
   proc_msg3_wrong_mac P idR eI eR ap _ (set_byte_ne _ j c hj hc)⟩

/-- Witness for C4 at concrete inputs: byte 0 of `msg2.cmac` and byte 1 of
`msg3.cmac` are each flipped, and both consuming operations reject. -/
theorem mac_tamper_fails_witness :
    sgx_dh_responder_proc_msg2 toyPrims wIdR (runSR1 toyPrims 2)
        { runMsg2 toyPrims wIdI 1 2 with
          cmac := (runMsg2 toyPrims wIdI 1 2).cmac.set 0 0 } [] =
      (.error .AuthenticationFailure, abortSession (runSR1 toyPrims 2)) ∧
    sgx_dh_initiator_proc_msg3 toyPrims (runSI1 toyPrims 1 2)
        { runMsg3 toyPrims wIdR 1 2 [] with
          cmac := (runMsg3 toyPrims wIdR 1 2 []).cmac.set 1 1 } =
      (.error .AuthenticationFailure, abortSession (runSI1 toyPrims 1 2)) :=
  mac_tamper_fails toyPrims wIdI wIdR 1 2 [] 0 0 1 1 (by decide) (by decide)
    (by decide) (by decide)

/-- Claim C5: the MACs of Message2 and Message3 are computed over transcripts that
contain both parties' ephemeral public keys and the attestation report, and
replaying a previously valid Message2 to a second, freshly initialized
responder session whose fresh public key differs fails with
`AuthenticationFailure`, provided the MAC binds its transcript (equal tags
force equal transcripts). -/
theorem msg2_replay_fails (P : Primitives) (idI idR : EnclaveIdentity)
    (eI eR eR2 : Nat) (ap : List Nat)
    (hbind : ∀ (kA kB : Nat) (tA tB : Transcript),
      P.cmac kA tA = P.cmac kB tB → tA = tB)
    (hfresh : (P.genKeypair eR2).1 ≠ (P.genKeypair eR).1) :
    (runMsg2 P idI eI eR).cmac =
      P.cmac (runSmk P eI eR)
        { g_a := (P.genKeypair eR).1, g_b := (P.genKeypair eI).1,
          report := (runMsg2 P idI eI eR).report, additional_prop := [] } ∧
    (runMsg3 P idR eI eR ap).cmac =
      P.cmac (runSmk P eI eR)
        { g_a := (P.genKeypair eR).1, g_b := (P.genKeypair eI).1,
          report := (runMsg3 P idR eI eR ap).report,
          additional_prop := ap } ∧
    sgx_dh_responder_proc_msg2 P idR (runSR1 P eR2) (runMsg2 P idI eI eR)
        ap =
      (.error .AuthenticationFailure, abortSession (runSR1 P eR2)) := by
  refine ⟨rfl, rfl, ?_⟩
  unfold sgx_dh_responder_proc_msg2
  split
  · split
    · rename_i hcond
      exfalso
      have hEq2 := hcond.trans
        (show (runMsg2 P idI eI eR).cmac =
          P.cmac (runSmk P eI eR) (runT2 P idI eI eR) from rfl)
      have ht := hbind _ _ _ _ hEq2
      exact hfresh (congrArg Transcript.g_a ht)
    · rfl
  · rename_i hcond
    exact absurd ⟨rfl, rfl⟩ hcond

/-- Witness for C5 at concrete inputs: the fresh responder session generates
a different public key and the replayed Message2 is rejected. -/
theorem msg2_replay_fails_witness :
    (toyPrims.genKeypair 2).1 ≠ (toyPrims.genKeypair 1).1 ∧
    sgx_dh_responder_proc_msg2 toyPrims wIdR (runSR1 toyPrims 2)
        (runMsg2 toyPrims wIdI 3 1) [] =
      (.error .AuthenticationFailure, abortSession (runSR1 toyPrims 2)) :=
  ⟨by decide,
   (msg2_replay_fails toyPrims wIdI wIdR 3 1 2 []
     (fun kA kB tA tB h => toyPrims_cmac_binding kA kB tA tB h)
     (by decide)).2.2⟩

/-- Claim C9: the message-consuming operations never modify their input message:
after each of the three consuming operations runs on a call frame (success
or failure), the input message buffer in the frame is unchanged. -/
theorem inputs_not_modified (P : Primitives) (selfId : EnclaveIdentity)
    (f1 : Msg1Frame) (f2 : Msg2Frame) (f3 : Msg3Frame) (ap : List Nat) :
    (initiator_proc_msg1_frame P selfId f1).2.buf = f1.buf ∧
    (responder_proc_msg2_frame P selfId f2 ap).2.buf = f2.buf ∧
    (initiator_proc_msg3_frame P f3).2.buf = f3.buf :=
  ⟨rfl, rfl, rfl⟩

/-- Claim C7: the wire layout of Message3 is the 16-byte MAC, then the fixed-size
report blob, then the 4-byte little-endian `additional_prop_length`, then
exactly that many bytes of additional-property data; the MAC field has
exactly 16 bytes in both Message2 and Message3. -/
theorem msg3_wire_layout (m2 : WireMsg2) (m3 : WireMsg3)
    (h2 : m2.wf) (h3 : m3.wf) :
    wireMsg3Bytes m3 =
      m3.cmac ++ m3.report ++ natToLE 4 m3.additional_prop.length ++
        m3.additional_prop ∧
    (wireMsg3Bytes m3).take SGX_DH_MAC_SIZE = m3.cmac ∧
    (natToLE 4 m3.additional_prop.length).length = 4 ∧
    ((wireMsg3Bytes m3).drop (SGX_DH_MAC_SIZE + SGX_REPORT_SIZE)).take 4 =
      natToLE 4 m3.additional_prop.length ∧
    leVal (natToLE 4 m3.additional_prop.length) =
      m3.additional_prop.length ∧
    (wireMsg3Bytes m3).drop (SGX_DH_MAC_SIZE + SGX_REPORT_SIZE + 4) =
      m3.additional_prop ∧
    m3.cmac.length = 16 ∧ m2.cmac.length = 16 := by
  obtain ⟨h3a, h3b, h3c⟩ := h3
  have hdrop1 : (wireMsg3Bytes m3).drop SGX_DH_MAC_SIZE =
      wireMsg3BodyBytes m3 := by
    rw [wireMsg3Bytes, ← h3a]
    exact List.drop_left _ _
  have hdrop2 : (wireMsg3Bytes m3).drop (SGX_DH_MAC_SIZE + SGX_REPORT_SIZE) =
      natToLE 4 m3.additional_prop.length ++ m3.additional_prop := by
    rw [← List.drop_drop, hdrop1, wireMsg3BodyBytes, List.append_assoc,
      ← h3b]
    exact List.drop_left _ _
  have hflat : wireMsg3Bytes m3 =
      m3.cmac ++ m3.report ++ natToLE 4 m3.additional_prop.length ++
        m3.additional_prop := by
    simp [wireMsg3Bytes, wireMsg3BodyBytes, List.append_assoc]
  refine ⟨hflat, ?_, natToLE_length 4 _, ?_, ?_, ?_, h3a, h2.2.2⟩
  · rw [wireMsg3Bytes, ← h3a]
    exact List.take_left _ _
  · rw [hdrop2]
    rw [List.take_append_of_le_length (Nat.le_of_eq (natToLE_length 4 _).symm)]
    exact List.take_of_length_le (le_of_eq (natToLE_length 4 _))
  · exact leVal_natToLE 4 _ (by
      have h4 : (256:Nat) ^ 4 = 2 ^ 32 := by norm_num
      rw [h4]
      exact h3c)
  · calc (wireMsg3Bytes m3).drop (SGX_DH_MAC_SIZE + SGX_REPORT_SIZE + 4)
        = ((wireMsg3Bytes m3).drop (SGX_DH_MAC_SIZE + SGX_REPORT_SIZE)).drop 4 :=
          (List.drop_drop 4 _ _).symm
      _ = (natToLE 4 m3.additional_prop.length ++ m3.additional_prop).drop 4 := by
          rw [hdrop2]
      _ = m3.additional_prop := drop_len_append _ _ _ (natToLE_length 4 _)

/-- Witness for C7 at a concrete well-formed Message3 and Message2. -/
theorem msg3_wire_layout_witness :
    wWireMsg2.wf ∧ wWireMsg3.wf ∧
    (wireMsg3Bytes wWireMsg3).take SGX_DH_MAC_SIZE = wWireMsg3.cmac ∧
    leVal (natToLE 4 wWireMsg3.additional_prop.length) =
      wWireMsg3.additional_prop.length :=
  ⟨wWireMsg2_wf, wWireMsg3_wf,
   (msg3_wire_layout wWireMsg2 wWireMsg3 wWireMsg2_wf wWireMsg3_wf).2.1,
   (msg3_wire_layout wWireMsg2 wWireMsg3 wWireMsg2_wf
     wWireMsg3_wf).2.2.2.2.1⟩

/-- Claim C8: with the byte-packed layout, Message1 serializes to exactly 64 bytes
of public key plus the fixed target-locator size, Message2 to exactly 64
bytes of public key plus the fixed report size plus 16 MAC bytes, and
Message3's body begins exactly 16 bytes after the start of the message. -/
theorem packed_no_padding (m1 : WireMsg1) (m2 : WireMsg2) (m3 : WireMsg3)
    (h1 : m1.wf) (h2 : m2.wf) (h3 : m3.wf) :
    (wireMsg1Bytes m1).length = 64 + SGX_TARGET_INFO_SIZE ∧
    (wireMsg2Bytes m2).length = 64 + SGX_REPORT_SIZE + 16 ∧
    (wireMsg3Bytes m3).drop 16 = wireMsg3BodyBytes m3 := by
  obtain ⟨h1a, h1b⟩ := h1
  obtain ⟨h2a, h2b, h2c⟩ := h2
  refine ⟨?_, ?_, ?_⟩
  · simp only [wireMsg1Bytes, List.length_append, h1a, h1b,
      SGX_EC256_PUB_SIZE]
  · simp only [wireMsg2Bytes, List.length_append, h2a, h2b, h2c,
      SGX_EC256_PUB_SIZE, SGX_DH_MAC_SIZE]
  · rw [show (16:Nat) = m3.cmac.length from h3.1.symm, wireMsg3Bytes]
    exact List.drop_left _ _

/-- Witness for C8 at concrete well-formed wire messages. -/
theorem packed_no_padding_witness :
    (wireMsg1Bytes wWireMsg1).length = 64 + SGX_TARGET_INFO_SIZE ∧
    (wireMsg2Bytes wWireMsg2).length = 64 + SGX_REPORT_SIZE + 16 ∧
    (wireMsg3Bytes wWireMsg3).drop 16 = wireMsg3BodyBytes wWireMsg3 :=
  packed_no_padding wWireMsg1 wWireMsg2 wWireMsg3
    wWireMsg1_wf wWireMsg2_wf wWireMsg3_wf

/-- Claim C10: the packed session state always fits the single fixed-size 200-byte
buffer of `sgx_dh_session_t` (`SGX_DH_SESSION_DATA_SIZE`), the size is the
same for the Initiator and the Responder role, and every handshake operation
returns a session of the same fixed size. -/
theorem session_fixed_size (P : Primitives) (selfId : EnclaveIdentity)
    (s : Session) (eI eR target : Nat) (m1 : Msg1) (m2 : Msg2) (m3 : Msg3)
    (ap : List Nat) :
    (sessionBytes s).length = SGX_DH_SESSION_DATA_SIZE ∧
    (sessionBytes (sgx_dh_init_session P .Initiator eI)).length =
      (sessionBytes (sgx_dh_init_session P .Responder eR)).length ∧
    (sessionBytes (sgx_dh_responder_gen_msg1 s target).2).length =
      SGX_DH_SESSION_DATA_SIZE ∧
    (sessionBytes (sgx_dh_initiator_proc_msg1 P selfId s m1).2).length =
      SGX_DH_SESSION_DATA_SIZE ∧
    (sessionBytes (sgx_dh_responder_proc_msg2 P selfId s m2 ap).2).length =
      SGX_DH_SESSION_DATA_SIZE ∧
    (sessionBytes (sgx_dh_initiator_proc_msg3 P s m3).2).length =
      SGX_DH_SESSION_DATA_SIZE :=
  ⟨session_bytes_length s,
   (session_bytes_length _).trans (session_bytes_length _).symm,
   session_bytes_length _, session_bytes_length _, session_bytes_length _,
   session_bytes_length _⟩

end SgxDh
